import Mathlib

/-! Verification of the env-config-validator core.

Shallow embedding of `src/src/validator/env-validator.ts` (the `EnvValidator`
class): value coercion (`processEnvValue`), the per-property constraint check
(the compiled AJV property schema, restricted to the keyword subset the
repository uses: `type`, `enum`, `minimum`, `maximum`, `minLength`,
`maxLength`, and the three custom formats registered in `addCustomFormats`),
and the validation engine (`validate`).

Modelling conventions:
- JavaScript numbers are modelled as `ℚ`; `Number(value)` is modelled by
  `jsNumber`, a parser for decimal floating-point numerals (optional sign,
  optional fraction, optional exponent), with the JS behaviours that a
  whitespace-only or empty string parses to `0`; strings outside this decimal
  grammar (e.g. hex literals, `Infinity`) are modelled as `NaN` (`none`).
- The merged environment map (`loadEnvironmentVariables`) is passed in as an
  association list `List (String × String)`; per the data model its keys never
  repeat.  `envVars[key]` is `List.lookup`.  The fallible loading step is an
  `Except String` argument to `validate`, mirroring the `try`/`catch`: the
  only statement inside the `try` that can throw past the inner handlers is
  `loadEnvironmentVariables()`.
- Exceptions thrown by `processEnvValue` become `Except.error` with the
  thrown message.
-/

deriving instance DecidableEq for Except

namespace EnvValidator

/-- A coerced environment value: `string | number | boolean` as returned by
`processEnvValue` (JS numbers modelled as `ℚ`). -/
inductive Value where
  | str (s : String)
  | num (q : ℚ)
  | bool (b : Bool)
deriving DecidableEq, Repr

/-- The four declared property types of the schema model
(`src/src/types`, used in the `switch` of `processEnvValue`). -/
inductive PropertyType where
  | string
  | number
  | integer
  | boolean
deriving DecidableEq, Repr

/-- The JSON name of a property type, as interpolated into error messages. -/
def PropertyType.name : PropertyType → String
  | .string => "string"
  | .number => "number"
  | .integer => "integer"
  | .boolean => "boolean"

/-- The custom formats registered in `addCustomFormats` (the only formats the
validator knows). -/
inductive FormatKind where
  | email
  | uri
  | uuid
deriving DecidableEq, Repr

/-- A declared property: `type` plus the constraint keywords the repository's
schemas use (`default`, `enum`, `minimum`, `maximum`, `minLength`,
`maxLength`, `format`). -/
structure Property where
  type : PropertyType
  default : Option Value := none
  enum : Option (List Value) := none
  minimum : Option ℚ := none
  maximum : Option ℚ := none
  minLength : Option Nat := none
  maxLength : Option Nat := none
  format : Option FormatKind := none
deriving DecidableEq, Repr

/-- The schema model: `{ properties, required }`
(`isValidSchema` guarantees `properties` is an object). -/
structure EnvSchema where
  properties : List (String × Property)
  required : List String
deriving DecidableEq, Repr

/-- An entry of `ValidationResult.errors`:
`{ key, message, value?, expectedType? }`. -/
structure VError where
  key : String
  message : String
  value : Option String := none
  expectedType : Option String := none
deriving DecidableEq, Repr

/-- A `ValidationWarning`: `{ key, message, value? }`. -/
structure VWarning where
  key : String
  message : String
  value : Option String := none
deriving DecidableEq, Repr

/-- The `ValidationResult` returned by `validate`, together with the
`processedEnv` accumulator that `validate` builds while looping over the
declared properties (in the TypeScript code `processedEnv` is a local of
`validate`; we keep it in the result structure so that the adopted final
value of each property is observable). -/
structure ValidationResult where
  valid : Bool
  errors : List VError
  missingKeys : List String
  invalidKeys : List String
  warnings : List VWarning
  processedEnv : List (String × Value)
deriving DecidableEq, Repr

/-- Engine configuration (`ValidatorOptions` after `mergeWithDefaults`),
restricted to the two options the core reads: `strict` and `allowUnknown`.
(`schemaPath`/`envPath` select the inputs we pass explicitly; `exitOnError`
and `silent` belong to the excluded presentation layer.) -/
structure ValidatorOptions where
  strict : Bool := true
  allowUnknown : Bool := false
deriving DecidableEq, Repr

/-! ## The JS `Number(·)` model -/

/-- Leading- and trailing-whitespace trim on a character list (the JS
`String.prototype.trim` applied by `Number(·)` and by the boolean branch of
`processEnvValue`; modelled for ASCII whitespace). -/
def trimWs (cs : List Char) : List Char :=
  ((cs.dropWhile Char.isWhitespace).reverse.dropWhile Char.isWhitespace).reverse

/-- Numeric value of a digit string (most significant first). -/
def digitsToNat (cs : List Char) : Nat :=
  cs.foldl (fun a c => 10 * a + (c.toNat - 48)) 0

/-- Parse an optional sign. -/
def parseSign : List Char → ℤ × List Char
  | '+' :: rest => (1, rest)
  | '-' :: rest => (-1, rest)
  | cs => (1, cs)

/-- Parse the optional exponent suffix `e`/`E` sign? digits of a decimal
numeral; returns the exponent, or `none` when malformed / trailing input. -/
def parseExponent : List Char → Option ℤ
  | [] => some 0
  | e :: rest =>
    if e = 'e' ∨ e = 'E' then
      let (esgn, rest') :=
        match rest with
        | '+' :: r => ((1 : ℤ), r)
        | '-' :: r => ((-1 : ℤ), r)
        | r => ((1 : ℤ), r)
      let (ds, rest'') := rest'.span Char.isDigit
      if ds.isEmpty ∨ ¬ rest''.isEmpty then none
      else some (esgn * (digitsToNat ds : ℤ))
    else none

/-- The model of JavaScript `Number(value)` on decimal numerals, returning
`none` for `NaN`.  JS semantics captured: surrounding whitespace is trimmed;
an empty (or all-whitespace) string parses to `0`; otherwise the string must
be `sign? digits ('.' digits?)? | sign? '.' digits`, optionally followed by a
decimal exponent.  (Hex/octal/binary literals and `Infinity` are out of the
modelled grammar and map to `none`.) -/
def jsNumber (s : String) : Option ℚ :=
  let cs := trimWs s.data
  if cs.isEmpty then some 0
  else
    let (sgn, cs₁) := parseSign cs
    let (intPart, cs₂) := cs₁.span Char.isDigit
    let (fracPart, cs₃) :=
      match cs₂ with
      | '.' :: rest => rest.span Char.isDigit
      | _ => ([], cs₂)
    if intPart.isEmpty ∧ fracPart.isEmpty then none
    else
      match parseExponent cs₃ with
      | none => none
      | some e =>
        -- sign * (int.frac) * 10^e, assembled as a quotient of integers
        let mantNum : ℤ :=
          sgn * ((digitsToNat intPart * 10 ^ fracPart.length + digitsToNat fracPart : Nat) : ℤ)
        some (if 0 ≤ e then
                mkRat (mantNum * ((10 ^ e.toNat : Nat) : ℤ)) (10 ^ fracPart.length)
              else
                mkRat mantNum (10 ^ fracPart.length * 10 ^ (-e).toNat))

/-- The JS `value.toLowerCase().trim()` of the boolean branch of
`processEnvValue` (ASCII lowering). -/
def lowerTrim (s : String) : String :=
  ⟨trimWs (s.data.map Char.toLower)⟩

/-- The JS `String(x)` rendering of a default value, used when composing the default-use
warning's `value` field.  Exact for strings, booleans and whole numbers; a
non-integral number is rendered as `num/den` (JS decimal formatting of
non-integers is not modelled further, no claim depends on it). -/
def jsString : Value → String
  | .str s => s
  | .bool b => if b then "true" else "false"
  | .num q => if q.den = 1 then toString q.num else toString q.num ++ "/" ++ toString q.den

/-! ## `processEnvValue` (env-validator.ts lines 165–189) -/

/-- The truthy vocabulary of the boolean branch. -/
def truthyTokens : List String := ["true", "1", "yes", "on"]

/-- The falsy vocabulary of the boolean branch (note `""`). -/
def falsyTokens : List String := ["false", "0", "no", "off", ""]

/-- Model of `processEnvValue(value, expectedType)`: convert a raw string to a typed
value; a thrown `Error` is `Except.error` carrying the thrown message.
- `number`/`integer`: `Number(value)`, throw on `NaN`, and for `integer`
  apply `Math.floor` (floor, i.e. round toward negative infinity);
- `boolean`: lowercase, trim, and match against the two vocabularies;
- `string` (and the `default` switch case): identity. -/
def processEnvValue (value : String) (expectedType : PropertyType) :
    Except String Value :=
  match expectedType with
  | .number | .integer =>
    match jsNumber value with
    | none =>
      let tn := expectedType.name
      .error s!"Cannot convert \x22{value}\x22 to {tn}"
    | some num =>
      .ok (.num (if expectedType = .integer then ((⌊num⌋ : ℤ) : ℚ) else num))
  | .boolean =>
    let lowerValue := lowerTrim value
    if truthyTokens.contains lowerValue then .ok (.bool true)
    else if falsyTokens.contains lowerValue then .ok (.bool false)
    else .error s!"Cannot convert \x22{value}\x22 to boolean"
  | .string => .ok (.str value)

/-! ## Custom format recognizers (`addCustomFormats`, lines 73–88) -/

/-- A character the email regex accepts inside the local and domain parts:
`[^\s@]`. -/
def emailChar (c : Char) : Bool := !c.isWhitespace && c != '@'

/-- The email regex `/^[^\s@]+@[^\s@]+\.[^\s@]+$/`: one `@` separating a non-empty
whitespace-free local part from a whitespace-free domain that has a `.`
strictly inside it. -/
def matchEmail (cs : List Char) : Bool :=
  match cs.span (fun c => c != '@') with
  | (lp, '@' :: domain) =>
    !lp.isEmpty && lp.all emailChar &&
    !domain.isEmpty && domain.all emailChar &&
    ((domain.drop 1).dropLast.contains '.')
  | _ => false

/-- The uri regex `/^https?:\/\/.+/`: an `http://` or `https://` scheme followed by at
least one character matchable by `.` (not a line terminator). -/
def matchUri (cs : List Char) : Bool :=
  match cs with
  | 'h' :: 't' :: 't' :: 'p' :: 's' :: ':' :: '/' :: '/' :: c :: _ =>
    c != '\n' && c != '\r'
  | 'h' :: 't' :: 't' :: 'p' :: ':' :: '/' :: '/' :: c :: _ =>
    c != '\n' && c != '\r'
  | _ => false

/-- Membership in `[0-9a-f]` case-insensitively. -/
def isHexChar (c : Char) : Bool :=
  c.isDigit || ('a' ≤ c && c ≤ 'f') || ('A' ≤ c && c ≤ 'F')

/-- Split a character list on a separator character. -/
def splitOnChar (sep : Char) : List Char → List (List Char)
  | [] => [[]]
  | c :: rest =>
    if c = sep then [] :: splitOnChar sep rest
    else
      match splitOnChar sep rest with
      | h :: t => (c :: h) :: t
      | [] => [[c]]

/-- The uuid regex `/^[0-9a-f]{8}-[0-9a-f]{4}-[0-9a-f]{4}-[0-9a-f]{4}-[0-9a-f]{12}$/i`. -/
def matchUuid (cs : List Char) : Bool :=
  let groups := splitOnChar '-' cs
  groups.map List.length == [8, 4, 4, 4, 12] && groups.all (·.all isHexChar)

/-- Dispatch a format keyword to its registered recognizer. -/
def matchFormat : FormatKind → String → Bool
  | .email, s => matchEmail s.data
  | .uri, s => matchUri s.data
  | .uuid, s => matchUuid s.data

/-! ## Constraint check of one property (the compiled AJV property schema,
`validate` lines 234–244) -/

/-- The `type` keyword on the coerced value (`integer` additionally demands a
whole number, as `Number.isInteger` does). -/
def typeOk : PropertyType → Value → Bool
  | .string, .str _ => true
  | .number, .num _ => true
  | .integer, .num q => q.den == 1
  | .boolean, .bool _ => true
  | _, _ => false

/-- The violation messages AJV (`allErrors: true`) produces for one property
schema applied to the coerced value; an empty list means the value passes.
Keywords are those the repository's schemas can carry: `type`, `enum`,
`minimum`, `maximum`, `minLength`, `maxLength`, `format` (each non-type
keyword constrains only instances of its own primitive type, as in AJV).
Message texts model AJV's defaults; the engine only uses the head. -/
def checkProperty (p : Property) (v : Value) : List String :=
  (if typeOk p.type v then []
   else
     let tn := p.type.name
     [s!"must be {tn}"]) ++
  (match p.enum with
   | some vs =>
     if vs.contains v then [] else ["must be equal to one of the allowed values"]
   | none => []) ++
  (match p.minimum, v with
   | some m, .num q =>
     if m ≤ q then []
     else
       let ms := jsString (.num m)
       [s!"must be >= {ms}"]
   | _, _ => []) ++
  (match p.maximum, v with
   | some m, .num q =>
     if q ≤ m then []
     else
       let ms := jsString (.num m)
       [s!"must be <= {ms}"]
   | _, _ => []) ++
  (match p.minLength, v with
   | some n, .str s =>
     if n ≤ s.length then []
     else [s!"must NOT have fewer than {n} characters"]
   | _, _ => []) ++
  (match p.maxLength, v with
   | some n, .str s =>
     if s.length ≤ n then []
     else [s!"must NOT have more than {n} characters"]
   | _, _ => []) ++
  (match p.format, v with
   | some f, .str s =>
     if matchFormat f s then []
     else ["must match format"]
   | _, _ => [])

/-! ## The validation engine (`validate`, lines 194–302) -/

/-- The required-key test of `validate` (line 206) and the skip test of the
property loop (line 219): the merged map has no entry, or the entry is the
empty string. -/
def isMissing (env : List (String × String)) (k : String) : Bool :=
  match env.lookup k with
  | none => true
  | some v => v == ""

/-- Message of a missing-required-key error (line 210). -/
def requiredMissingMsg (k : String) : String :=
  s!"Required environment variable \x22{k}\x22 is missing or empty"

/-- The error object pushed for a missing required key (lines 208–211). -/
def requiredMissingError (k : String) : VError :=
  { key := k, message := requiredMissingMsg k }

/-- The keys pushed into `missingKeys` (lines 204–213): required keys absent
from or empty in the merged map, in required-list order. -/
def missingKeysOf (schema : EnvSchema) (env : List (String × String)) : List String :=
  schema.required.filter (fun k => isMissing env k)

/-- The errors pushed by the required-key loop, in the same order. -/
def requiredErrorsOf (schema : EnvSchema) (env : List (String × String)) : List VError :=
  (missingKeysOf schema env).map requiredMissingError

/-- What the property loop (lines 216–263) does with one declared property. -/
inductive PropOutcome where
  | skip
  | useDefault (d : Value)
  | invalid (e : VError)
  | okValue (v : Value)
deriving DecidableEq, Repr

/-- The error object pushed for an invalid value (lines 245–250 and
256–261). -/
def mkInvalidError (k : String) (p : Property) (raw msg : String) : VError :=
  { key := k, message := s!"Invalid value for \x22{k}\x22: {msg}",
    value := some raw, expectedType := some p.type.name }

/-- Lines 219–229: entry absent or empty — adopt the default when present,
otherwise skip. -/
def defaultBranch (p : Property) : PropOutcome :=
  match p.default with
  | some d => .useDefault d
  | none => .skip

/-- Lines 231–262: coerce the raw string, then run the compiled property
schema; a thrown coercion error or a failed check yields an invalid outcome
carrying the first message (the code's `|| 'validation failed'` fallback is
unreachable since a failed check always has a first message). -/
def coerceAndCheck (k : String) (p : Property) (raw : String) : PropOutcome :=
  match processEnvValue raw p.type with
  | .error m => .invalid (mkInvalidError k p raw m)
  | .ok v =>
    match checkProperty p v with
    | [] => .okValue v
    | m :: _ => .invalid (mkInvalidError k p raw m)

/-- One iteration of the property loop. -/
def processProp (env : List (String × String)) (k : String) (p : Property) :
    PropOutcome :=
  match env.lookup k with
  | none => defaultBranch p
  | some v => if v = "" then defaultBranch p else coerceAndCheck k p v

/-- The property loop over `Object.entries(this.schema.properties)` in
declaration order. -/
def propResults (schema : EnvSchema) (env : List (String × String)) :
    List (String × PropOutcome) :=
  schema.properties.map (fun kp => (kp.1, processProp env kp.1 kp.2))

/-- The keys pushed into `invalidKeys` by the property loop. -/
def invalidKeysOf (schema : EnvSchema) (env : List (String × String)) : List String :=
  (propResults schema env).filterMap (fun ko =>
    match ko.2 with
    | .invalid _ => some ko.1
    | _ => none)

/-- The errors pushed by the property loop. -/
def propErrorsOf (schema : EnvSchema) (env : List (String × String)) : List VError :=
  (propResults schema env).filterMap (fun ko =>
    match ko.2 with
    | .invalid e => some e
    | _ => none)

/-- Message of a default-use warning (line 224). -/
def usingDefaultMsg (k : String) : String :=
  s!"Using default value for \x22{k}\x22"

/-- The warning pushed when a default is adopted (lines 222–226). -/
def defaultWarning (k : String) (d : Value) : VWarning :=
  { key := k, message := usingDefaultMsg k, value := some (jsString d) }

/-- The default-use warnings pushed by the property loop. -/
def defaultWarningsOf (schema : EnvSchema) (env : List (String × String)) :
    List VWarning :=
  (propResults schema env).filterMap (fun ko =>
    match ko.2 with
    | .useDefault d => some (defaultWarning ko.1 d)
    | _ => none)

/-- The `processedEnv` accumulation of the property loop (lines 221 and
252). -/
def processedEnvOf (schema : EnvSchema) (env : List (String × String)) :
    List (String × Value) :=
  (propResults schema env).filterMap (fun ko =>
    match ko.2 with
    | .useDefault d => some (ko.1, d)
    | .okValue v => some (ko.1, v)
    | _ => none)

/-- The system-reserved name patterns of the unknown-key scan (line 268). -/
def systemKeys : List String := ["npm_", "NODE_", "PATH", "HOME", "USER", "SHELL"]

/-- Character-level model of JS `String.prototype.startsWith`. -/
def startsWithChars : List Char → List Char → Bool
  | _, [] => true
  | [], _ :: _ => false
  | c :: cs, d :: ds => c == d && startsWithChars cs ds

/-- Test `systemKeys.some(p => key.startsWith(p))` of line 271. -/
def isSystemKey (k : String) : Bool :=
  systemKeys.any (fun w => startsWithChars k.data w.data)

/-- Message of an unknown-key warning (line 275). -/
def unknownMsg (k : String) : String :=
  s!"Unknown environment variable \x22{k}\x22 not defined in schema"

/-- The warning pushed for an unknown key (lines 273–277). -/
def unknownWarning (k v : String) : VWarning :=
  { key := k, message := unknownMsg k, value := some v }

/-- The declared property names (`Object.keys(this.schema.properties)`). -/
def schemaKeysOf (schema : EnvSchema) : List String :=
  schema.properties.map Prod.fst

/-- The unknown-key scan (lines 266–280): skipped entirely when
`allowUnknown` is set; otherwise every key of the merged map that is neither
declared nor system-reserved yields a warning, in map order. -/
def unknownWarningsOf (schema : EnvSchema) (options : ValidatorOptions)
    (env : List (String × String)) : List VWarning :=
  if options.allowUnknown then []
  else
    env.filterMap (fun kv =>
      if (schemaKeysOf schema).contains kv.1 || isSystemKey kv.1 then none
      else some (unknownWarning kv.1 kv.2))

/-- The result composed on the normal path (lines 282–288). -/
def validateCore (schema : EnvSchema) (options : ValidatorOptions)
    (env : List (String × String)) : ValidationResult :=
  let errors := requiredErrorsOf schema env ++ propErrorsOf schema env
  { valid := errors.isEmpty
    errors := errors
    missingKeys := missingKeysOf schema env
    invalidKeys := invalidKeysOf schema env
    warnings := defaultWarningsOf schema env ++ unknownWarningsOf schema options env
    processedEnv := processedEnvOf schema env }

/-- The result built by the `catch` branch (lines 290–301): a single error
under the sentinel key `VALIDATION_ERROR`, everything else empty. -/
def internalFailureResult (msg : String) : ValidationResult :=
  { valid := false
    errors := [{ key := "VALIDATION_ERROR", message := msg }]
    missingKeys := []
    invalidKeys := []
    warnings := []
    processedEnv := [] }

/-- Model of `validate()` (lines 194–302).  The environment loading step
(`loadEnvironmentVariables`) is the only statement of the `try` block whose
failure reaches the outer `catch`; it is therefore passed as an
`Except String` value, and a loading failure takes the `catch` path. -/
def validate (schema : EnvSchema) (options : ValidatorOptions)
    (envLoad : Except String (List (String × String))) : ValidationResult :=
  match envLoad with
  | .error msg => internalFailureResult msg
  | .ok env => validateCore schema options env

end EnvValidator

open EnvValidator

/-! ## Claim theorems -/

/-- C1: for every schema and environment load result, the Outcome returned by
`validate` satisfies `valid = true` iff its `errors` sequence is empty, on
every path out of `validate` including the internal-failure path. -/
theorem C1_valid_iff_errors_empty (schema : EnvSchema) (options : ValidatorOptions)
    (envLoad : Except String (List (String × String))) :
    (validate schema options envLoad).valid = true ↔
      (validate schema options envLoad).errors = [] := by
  cases envLoad with
  | error msg => simp [validate, internalFailureResult]
  | ok env => simp [validate, validateCore, List.isEmpty_iff]

/-- C3: `validate` never raises past its own boundary; when loading the
environment sources fails, it returns an Outcome with `valid = false` whose
`errors` sequence is exactly one element keyed by the sentinel
`VALIDATION_ERROR`, and whose `missingKeys`, `invalidKeys` and `warnings`
are all empty. -/
theorem C3_internal_failure_outcome (schema : EnvSchema) (options : ValidatorOptions)
    (msg : String) :
    validate schema options (Except.error msg) =
      { valid := false
        errors := [{ key := "VALIDATION_ERROR", message := msg }]
        missingKeys := []
        invalidKeys := []
        warnings := []
        processedEnv := [] } := rfl

/-- C9: the `strict` configuration option does not alter the behavior of
`validate`: with all other options and inputs equal, `strict = true` and
`strict = false` yield equal Outcomes. -/
theorem C9_strict_has_no_effect (schema : EnvSchema) (a : Bool)
    (envLoad : Except String (List (String × String))) :
    validate schema { strict := true, allowUnknown := a } envLoad =
      validate schema { strict := false, allowUnknown := a } envLoad := by
  cases envLoad <;> rfl

/-- C4 counterexample: coercion of `"-3.7"` with declared type `integer`
yields `-4` (Math.floor), not the `-3` that truncation toward zero would
give, refuting the claim at this input. -/
theorem C4_counterexample :
    processEnvValue "-3.7" PropertyType.integer = Except.ok (Value.num (-4)) ∧
    processEnvValue "-3.7" PropertyType.integer ≠ Except.ok (Value.num (-3)) := by
  constructor
  · decide
  · decide

/-- C4 (amended): for every raw string that parses as a floating-point
numeral, coercion with declared type `integer` succeeds and produces the
whole number obtained by rounding the parsed value toward negative infinity
(Math.floor, so `"-3.7"` yields `-4`); it fails with a `CoercionError`
exactly when the parse yields not-a-number, and never rejects a non-integral
numeral. -/
theorem C4_integer_coercion_floors (s : String) :
    (∀ q : ℚ, jsNumber s = some q →
      processEnvValue s PropertyType.integer = Except.ok (Value.num ((⌊q⌋ : ℤ) : ℚ))) ∧
    (jsNumber s = none →
      ∃ msg, processEnvValue s PropertyType.integer = Except.error msg) := by
  constructor
  · intro q hq
    simp [processEnvValue, hq]
  · intro hq
    simp only [processEnvValue, hq]
    exact ⟨_, rfl⟩

/-- C4 witness: both branches of the amended claim at concrete inputs. -/
theorem C4_integer_coercion_floors_witness :
    jsNumber "-3.7" = some (mkRat (-37) 10) ∧
    processEnvValue "-3.7" PropertyType.integer =
      Except.ok (Value.num ((⌊(mkRat (-37) 10 : ℚ)⌋ : ℤ) : ℚ)) ∧
    ((⌊(mkRat (-37) 10 : ℚ)⌋ : ℤ) : ℚ) = -4 ∧
    jsNumber "abc" = none ∧
    (∃ msg, processEnvValue "abc" PropertyType.integer = Except.error msg) :=
  ⟨by decide,
   (C4_integer_coercion_floors "-3.7").1 (mkRat (-37) 10) (by decide),
   by decide,
   by decide,
   (C4_integer_coercion_floors "abc").2 (by decide)⟩

/-- C5: boolean coercion is a case-insensitive, whitespace-trimmed match:
a raw string whose lowercased-and-trimmed form is in the truthy vocabulary
coerces to `true`, one whose form is in the falsy vocabulary (which contains
the empty string) coerces to `false`, and every other string fails with a
`CoercionError`. -/
theorem C5_boolean_coercion (s : String) :
    (truthyTokens.contains (lowerTrim s) = true →
      processEnvValue s PropertyType.boolean = Except.ok (Value.bool true)) ∧
    (falsyTokens.contains (lowerTrim s) = true →
      processEnvValue s PropertyType.boolean = Except.ok (Value.bool false)) ∧
    (truthyTokens.contains (lowerTrim s) = false →
      falsyTokens.contains (lowerTrim s) = false →
      processEnvValue s PropertyType.boolean =
        Except.error s!"Cannot convert \x22{s}\x22 to boolean") := by
  refine ⟨fun h => ?_, fun h => ?_, fun h1 h2 => ?_⟩
  · have h' : lowerTrim s ∈ truthyTokens := by simpa using h
    simp [processEnvValue, h']
  · have h' : lowerTrim s ∈ falsyTokens := by simpa using h
    have h1 : lowerTrim s ∉ truthyTokens := by
      simp only [falsyTokens, List.mem_cons, List.not_mem_nil, or_false] at h'
      rcases h' with h' | h' | h' | h' | h' <;> simp [truthyTokens, h']
    simp [processEnvValue, h1, h']
  · have h1' : lowerTrim s ∉ truthyTokens := by simpa using h1
    have h2' : lowerTrim s ∉ falsyTokens := by simpa using h2
    simp [processEnvValue, h1', h2']

/-- C5 witness: the three branches at `"TRUE"`, `""` and `"maybe"`. -/
theorem C5_boolean_coercion_witness :
    truthyTokens.contains (lowerTrim "TRUE") = true ∧
    processEnvValue "TRUE" PropertyType.boolean = Except.ok (Value.bool true) ∧
    falsyTokens.contains (lowerTrim "") = true ∧
    processEnvValue "" PropertyType.boolean = Except.ok (Value.bool false) ∧
    truthyTokens.contains (lowerTrim "maybe") = false ∧
    falsyTokens.contains (lowerTrim "maybe") = false ∧
    processEnvValue "maybe" PropertyType.boolean =
      Except.error "Cannot convert \x22maybe\x22 to boolean" :=
  ⟨by decide, (C5_boolean_coercion "TRUE").1 (by decide),
   by decide, (C5_boolean_coercion "").2.1 (by decide),
   by decide, by decide, (C5_boolean_coercion "maybe").2.2 (by decide) (by decide)⟩

/-! ## Helper lemmas about the engine -/

/-- On a successful environment load, `validate` is the normal path. -/
theorem validate_ok (schema : EnvSchema) (options : ValidatorOptions)
    (env : List (String × String)) :
    validate schema options (Except.ok env) = validateCore schema options env := rfl

/-- Field equation for the composed errors. -/
theorem validateCore_errors (schema : EnvSchema) (options : ValidatorOptions)
    (env : List (String × String)) :
    (validateCore schema options env).errors =
      requiredErrorsOf schema env ++ propErrorsOf schema env := rfl

/-- Field equation for `missingKeys`. -/
theorem validateCore_missingKeys (schema : EnvSchema) (options : ValidatorOptions)
    (env : List (String × String)) :
    (validateCore schema options env).missingKeys = missingKeysOf schema env := rfl

/-- Field equation for `invalidKeys`. -/
theorem validateCore_invalidKeys (schema : EnvSchema) (options : ValidatorOptions)
    (env : List (String × String)) :
    (validateCore schema options env).invalidKeys = invalidKeysOf schema env := rfl

/-- Field equation for `warnings`. -/
theorem validateCore_warnings (schema : EnvSchema) (options : ValidatorOptions)
    (env : List (String × String)) :
    (validateCore schema options env).warnings =
      defaultWarningsOf schema env ++ unknownWarningsOf schema options env := rfl

/-- Field equation for `processedEnv`. -/
theorem validateCore_processedEnv (schema : EnvSchema) (options : ValidatorOptions)
    (env : List (String × String)) :
    (validateCore schema options env).processedEnv = processedEnvOf schema env := rfl

/-- Membership in `missingKeysOf` unfolded. -/
theorem mem_missingKeysOf {schema : EnvSchema} {env : List (String × String)}
    {k : String} :
    k ∈ missingKeysOf schema env ↔ k ∈ schema.required ∧ isMissing env k = true :=
  List.mem_filter

/-- An absent or empty lookup makes `isMissing` true. -/
theorem isMissing_of_lookup {env : List (String × String)} {k : String}
    (h : env.lookup k = none ∨ env.lookup k = some "") : isMissing env k = true := by
  unfold isMissing
  rcases h with h | h
  · rw [h]
  · rw [h]
    rfl

/-- When the entry is missing or empty, the property loop takes the
default-or-skip branch. -/
theorem processProp_of_missing {env : List (String × String)} {k : String}
    {p : Property} (h : isMissing env k = true) :
    processProp env k p = defaultBranch p := by
  unfold isMissing at h
  unfold processProp
  cases hl : env.lookup k with
  | none => rfl
  | some v =>
    rw [hl] at h
    have hb : (v == "") = true := h
    show (if v = "" then defaultBranch p else coerceAndCheck k p v) = defaultBranch p
    rw [if_pos (eq_of_beq hb)]

/-- The default-or-skip branch never yields an invalid outcome. -/
theorem defaultBranch_ne_invalid {p : Property} {e : VError} :
    defaultBranch p ≠ PropOutcome.invalid e := by
  unfold defaultBranch
  cases p.default <;> simp

/-- An invalid outcome of `coerceAndCheck` carries the processed key. -/
theorem coerceAndCheck_invalid_key {k : String} {p : Property} {raw : String}
    {e : VError} (h : coerceAndCheck k p raw = PropOutcome.invalid e) :
    e.key = k := by
  unfold coerceAndCheck at h
  cases hpe : processEnvValue raw p.type with
  | error m =>
    rw [hpe] at h
    have h' : PropOutcome.invalid (mkInvalidError k p raw m) = PropOutcome.invalid e := h
    cases h'
    rfl
  | ok v =>
    rw [hpe] at h
    have h' : (match checkProperty p v with
      | [] => PropOutcome.okValue v
      | m :: _ => PropOutcome.invalid (mkInvalidError k p raw m)) = PropOutcome.invalid e := h
    cases hcp : checkProperty p v with
    | nil =>
      rw [hcp] at h'
      simp at h'
    | cons m rest =>
      rw [hcp] at h'
      cases h'
      rfl

/-- An invalid outcome of the property loop carries the processed key and
only arises for a present, non-empty entry. -/
theorem processProp_invalid {env : List (String × String)} {k : String}
    {p : Property} {e : VError} (h : processProp env k p = PropOutcome.invalid e) :
    e.key = k ∧ isMissing env k = false := by
  unfold processProp at h
  cases hl : env.lookup k with
  | none =>
    rw [hl] at h
    exact absurd h defaultBranch_ne_invalid
  | some v =>
    rw [hl] at h
    have h' : (if v = "" then defaultBranch p else coerceAndCheck k p v) =
        PropOutcome.invalid e := h
    by_cases hv : v = ""
    · rw [if_pos hv] at h'
      exact absurd h' defaultBranch_ne_invalid
    · rw [if_neg hv] at h'
      refine ⟨coerceAndCheck_invalid_key h', ?_⟩
      unfold isMissing
      rw [hl]
      show (v == "") = false
      exact beq_eq_false_iff_ne.2 hv

/-- Members of `propErrorsOf` come from an invalid outcome of some declared
property. -/
theorem mem_propErrorsOf {schema : EnvSchema} {env : List (String × String)}
    {e : VError} (h : e ∈ propErrorsOf schema env) :
    ∃ p, (e.key, p) ∈ schema.properties ∧
      processProp env e.key p = PropOutcome.invalid e ∧
      isMissing env e.key = false := by
  obtain ⟨ko, hko, hmatch⟩ := List.mem_filterMap.1 h
  obtain ⟨kp, hkp, hmap⟩ := List.mem_map.1 hko
  subst hmap
  cases hpp : processProp env kp.1 kp.2 with
  | skip => rw [hpp] at hmatch; simp at hmatch
  | useDefault d => rw [hpp] at hmatch; simp at hmatch
  | okValue v => rw [hpp] at hmatch; simp at hmatch
  | invalid e0 =>
    rw [hpp] at hmatch
    simp at hmatch
    subst hmatch
    obtain ⟨hkey, hmiss⟩ := processProp_invalid hpp
    rw [hkey]
    exact ⟨kp.2, hkp, hpp, hmiss⟩

/-- Members of `invalidKeysOf` come from an invalid outcome of some declared
property with that name. -/
theorem mem_invalidKeysOf {schema : EnvSchema} {env : List (String × String)}
    {k : String} (h : k ∈ invalidKeysOf schema env) :
    ∃ p e, (k, p) ∈ schema.properties ∧
      processProp env k p = PropOutcome.invalid e := by
  obtain ⟨ko, hko, hmatch⟩ := List.mem_filterMap.1 h
  obtain ⟨kp, hkp, hmap⟩ := List.mem_map.1 hko
  subst hmap
  cases hpp : processProp env kp.1 kp.2 with
  | skip => rw [hpp] at hmatch; simp at hmatch
  | useDefault d => rw [hpp] at hmatch; simp at hmatch
  | okValue v => rw [hpp] at hmatch; simp at hmatch
  | invalid e0 =>
    rw [hpp] at hmatch
    simp at hmatch
    subst hmatch
    exact ⟨kp.2, e0, hkp, hpp⟩

/-- A missing key is never classified invalid. -/
theorem missing_not_invalid {schema : EnvSchema} {env : List (String × String)}
    {k : String} (hmiss : isMissing env k = true) :
    k ∉ invalidKeysOf schema env := by
  intro hk
  obtain ⟨p, e, _, hinv⟩ := mem_invalidKeysOf hk
  rw [processProp_of_missing hmiss] at hinv
  exact defaultBranch_ne_invalid hinv

/-! ## Claim theorems about the engine -/

/-- C2: for every name in the schema's required set that is absent from the
merged environment map or present with the empty-string value (treated
identically), `validate` places the name in `missingKeys` and appends an
error whose message is `Required environment variable "<name>" is missing or
empty`. -/
theorem C2_required_missing_reported (schema : EnvSchema) (options : ValidatorOptions)
    (env : List (String × String)) (k : String)
    (hreq : k ∈ schema.required)
    (habs : env.lookup k = none ∨ env.lookup k = some "") :
    k ∈ (validate schema options (Except.ok env)).missingKeys ∧
    ({ key := k,
       message := s!"Required environment variable \x22{k}\x22 is missing or empty" } : VError)
      ∈ (validate schema options (Except.ok env)).errors := by
  have hm : isMissing env k = true := isMissing_of_lookup habs
  constructor
  · rw [validate_ok, validateCore_missingKeys]
    exact mem_missingKeysOf.2 ⟨hreq, hm⟩
  · rw [validate_ok, validateCore_errors]
    refine List.mem_append_left _ ?_
    exact List.mem_map_of_mem requiredMissingError (mem_missingKeysOf.2 ⟨hreq, hm⟩)

/-- C2 witness: the absent key `A` and the empty-valued key `B` are both
reported with the documented message. -/
theorem C2_required_missing_reported_witness :
    ("A" ∈ (EnvSchema.mk [] ["A", "B"]).required ∧
      (List.lookup "A" [("B", "")] = none ∨ List.lookup "A" [("B", "")] = some "") ∧
      "A" ∈ (validate (EnvSchema.mk [] ["A", "B"]) {} (Except.ok [("B", "")])).missingKeys ∧
      ({ key := "A",
         message := "Required environment variable \x22A\x22 is missing or empty" } : VError)
        ∈ (validate (EnvSchema.mk [] ["A", "B"]) {} (Except.ok [("B", "")])).errors) ∧
    ("B" ∈ (EnvSchema.mk [] ["A", "B"]).required ∧
      (List.lookup "B" [("B", "")] = none ∨ List.lookup "B" [("B", "")] = some "") ∧
      "B" ∈ (validate (EnvSchema.mk [] ["A", "B"]) {} (Except.ok [("B", "")])).missingKeys ∧
      ({ key := "B",
         message := "Required environment variable \x22B\x22 is missing or empty" } : VError)
        ∈ (validate (EnvSchema.mk [] ["A", "B"]) {} (Except.ok [("B", "")])).errors) :=
  ⟨⟨by decide, Or.inl (by decide),
    C2_required_missing_reported (EnvSchema.mk [] ["A", "B"]) {} [("B", "")] "A"
      (by decide) (Or.inl (by decide))⟩,
   ⟨by decide, Or.inr (by decide),
    C2_required_missing_reported (EnvSchema.mk [] ["A", "B"]) {} [("B", "")] "B"
      (by decide) (Or.inr (by decide))⟩⟩

/-- C7: when `allowUnknown` is false, every key of the merged environment map
that is neither among the schema's declared property names nor matching a
system-reserved pattern receives the unknown-key warning; a warning keyed by
a system-matching name can only be a default-use warning (so such a key is
never reported unknown, for any value of `allowUnknown`); and when
`allowUnknown` is true the warnings are exactly the default-use warnings (no
unknown-key warning at all). -/
theorem C7_unknown_key_warnings (schema : EnvSchema) (options : ValidatorOptions)
    (env : List (String × String)) :
    (options.allowUnknown = false →
      ∀ kv ∈ env, (schemaKeysOf schema).contains kv.1 = false →
        isSystemKey kv.1 = false →
        unknownWarning kv.1 kv.2 ∈ (validate schema options (Except.ok env)).warnings) ∧
    (∀ k, isSystemKey k = true →
      ∀ w ∈ (validate schema options (Except.ok env)).warnings, w.key = k →
        w ∈ defaultWarningsOf schema env) ∧
    (options.allowUnknown = true →
      (validate schema options (Except.ok env)).warnings = defaultWarningsOf schema env) := by
  refine ⟨fun hAU kv hkv h1 h2 => ?_, fun k hk w hw hkey => ?_, fun hAU => ?_⟩
  · rw [validate_ok, validateCore_warnings]
    refine List.mem_append_right _ ?_
    unfold unknownWarningsOf
    rw [if_neg (by simp [hAU])]
    refine List.mem_filterMap.2 ⟨kv, hkv, ?_⟩
    rw [h1, h2]
    rfl
  · rw [validate_ok, validateCore_warnings] at hw
    rcases List.mem_append.1 hw with hw | hw
    · exact hw
    · exfalso
      unfold unknownWarningsOf at hw
      by_cases hAU : options.allowUnknown = true
      · rw [if_pos hAU] at hw
        exact List.not_mem_nil _ hw
      · rw [if_neg hAU] at hw
        obtain ⟨kv, hkv, hmatch⟩ := List.mem_filterMap.1 hw
        by_cases hc : ((schemaKeysOf schema).contains kv.1 || isSystemKey kv.1) = true
        · rw [if_pos hc] at hmatch
          simp at hmatch
        · rw [if_neg hc] at hmatch
          simp only [Bool.or_eq_true, not_or, Bool.not_eq_true] at hc
          have hw2 : w = unknownWarning kv.1 kv.2 := (Option.some.inj hmatch).symm
          have hwkey : w.key = kv.1 := by rw [hw2]; rfl
          rw [hwkey] at hkey
          rw [hkey] at hc
          rw [hc.2] at hk
          exact Bool.false_ne_true hk
  · rw [validate_ok, validateCore_warnings]
    unfold unknownWarningsOf
    rw [if_pos hAU, List.append_nil]

/-- C7 witness: with declared `PATH` (defaulted) and undeclared `LEGACY_VAR`,
the unknown key is reported when `allowUnknown` is false, the `PATH`-keyed
warning is a default-use warning, and with `allowUnknown` true the warnings
reduce to the default-use ones. -/
theorem C7_unknown_key_warnings_witness :
    isSystemKey "PATH" = true ∧
    isSystemKey "LEGACY_VAR" = false ∧
    unknownWarning "LEGACY_VAR" "x" ∈
      (validate
        { properties := [("PATH", { type := PropertyType.string, default := some (Value.str "/usr") })],
          required := [] }
        { strict := true, allowUnknown := false }
        (Except.ok [("LEGACY_VAR", "x")])).warnings ∧
    defaultWarning "PATH" (Value.str "/usr") ∈
      defaultWarningsOf
        { properties := [("PATH", { type := PropertyType.string, default := some (Value.str "/usr") })],
          required := [] }
        [("LEGACY_VAR", "x")] ∧
    (validate
        { properties := [("PATH", { type := PropertyType.string, default := some (Value.str "/usr") })],
          required := [] }
        { strict := true, allowUnknown := true }
        (Except.ok [("LEGACY_VAR", "x")])).warnings =
      defaultWarningsOf
        { properties := [("PATH", { type := PropertyType.string, default := some (Value.str "/usr") })],
          required := [] }
        [("LEGACY_VAR", "x")] :=
  ⟨by decide, by decide,
   (C7_unknown_key_warnings
      { properties := [("PATH", { type := PropertyType.string, default := some (Value.str "/usr") })],
        required := [] }
      { strict := true, allowUnknown := false }
      [("LEGACY_VAR", "x")]).1 rfl ("LEGACY_VAR", "x") (by decide) (by decide) (by decide),
   (C7_unknown_key_warnings
      { properties := [("PATH", { type := PropertyType.string, default := some (Value.str "/usr") })],
        required := [] }
      { strict := true, allowUnknown := false }
      [("LEGACY_VAR", "x")]).2.1 "PATH" (by decide)
      (defaultWarning "PATH" (Value.str "/usr")) (by decide) rfl,
   (C7_unknown_key_warnings
      { properties := [("PATH", { type := PropertyType.string, default := some (Value.str "/usr") })],
        required := [] }
      { strict := true, allowUnknown := true }
      [("LEGACY_VAR", "x")]).2.2 rfl⟩

/-- In a duplicate-free list, filtering for equality with a member yields
exactly one element. -/
theorem filter_beq_length_of_nodup {l : List String} {k : String}
    (hnd : l.Nodup) (hk : k ∈ l) :
    (l.filter (fun a => a == k)).length = 1 := by
  induction l with
  | nil => cases hk
  | cons a t ih =>
    rw [List.filter_cons]
    rcases List.mem_cons.1 hk with h | h
    · subst h
      rw [if_pos (by simp)]
      have ht : t.filter (fun a => a == k) = [] := by
        rw [List.filter_eq_nil_iff]
        intro x hx hb
        have : x = k := eq_of_beq hb
        subst this
        exact (List.nodup_cons.1 hnd).1 hx
      rw [ht]
      rfl
    · have hne : (a == k) = false := by
        refine beq_eq_false_iff_ne.2 fun hak => ?_
        subst hak
        exact (List.nodup_cons.1 hnd).1 h
      rw [if_neg (by simp [hne])]
      exact ih (List.nodup_cons.1 hnd).2 h

/-- C8: on the normal path, `missingKeys` is a subset of the schema's
required names, `invalidKeys` is a subset of the declared property names,
the two classifications are disjoint, and (for a duplicate-free required
list) a missing required key produces exactly one error. -/
theorem C8_key_classification (schema : EnvSchema) (options : ValidatorOptions)
    (env : List (String × String)) :
    (∀ k ∈ (validate schema options (Except.ok env)).missingKeys, k ∈ schema.required) ∧
    (∀ k ∈ (validate schema options (Except.ok env)).invalidKeys, k ∈ schemaKeysOf schema) ∧
    (∀ k ∈ (validate schema options (Except.ok env)).missingKeys,
      k ∉ (validate schema options (Except.ok env)).invalidKeys) ∧
    (schema.required.Nodup →
      ∀ k ∈ (validate schema options (Except.ok env)).missingKeys,
        (((validate schema options (Except.ok env)).errors).filter
          (fun e => e.key == k)).length = 1) := by
  refine ⟨fun k hk => ?_, fun k hk => ?_, fun k hk => ?_, fun hnd k hk => ?_⟩
  · rw [validate_ok, validateCore_missingKeys] at hk
    exact (mem_missingKeysOf.1 hk).1
  · rw [validate_ok, validateCore_invalidKeys] at hk
    obtain ⟨p, e, hp, _⟩ := mem_invalidKeysOf hk
    exact List.mem_map.2 ⟨(k, p), hp, rfl⟩
  · rw [validate_ok, validateCore_missingKeys] at hk
    rw [validate_ok, validateCore_invalidKeys]
    exact missing_not_invalid (mem_missingKeysOf.1 hk).2
  · rw [validate_ok, validateCore_missingKeys] at hk
    obtain ⟨hreq, hmiss⟩ := mem_missingKeysOf.1 hk
    rw [validate_ok, validateCore_errors, List.filter_append, List.length_append]
    have hprop : (propErrorsOf schema env).filter (fun e => e.key == k) = [] := by
      rw [List.filter_eq_nil_iff]
      intro e he hb
      obtain ⟨p, hp, hinv, hmiss'⟩ := mem_propErrorsOf he
      have heq : e.key = k := eq_of_beq hb
      rw [heq] at hmiss'
      rw [hmiss] at hmiss'
      exact Bool.noConfusion hmiss'
    rw [hprop]
    unfold requiredErrorsOf
    rw [List.filter_map, List.length_map]
    have hcongr : (missingKeysOf schema env).filter
        ((fun e : VError => e.key == k) ∘ requiredMissingError)
        = (missingKeysOf schema env).filter (fun r => r == k) :=
      List.filter_congr (fun a _ => rfl)
    rw [hcongr]
    unfold missingKeysOf
    rw [List.filter_filter]
    have hcongr2 : schema.required.filter (fun a => (a == k) && isMissing env a)
        = schema.required.filter (fun a => a == k) := by
      refine List.filter_congr fun a _ => ?_
      by_cases hak : a = k
      · subst hak
        simp [hmiss]
      · rw [beq_eq_false_iff_ne.2 hak]
        rfl
    rw [hcongr2, filter_beq_length_of_nodup hnd hreq]
    rfl

/-- C8 witness: the invariants at a schema with a missing required key and at
a schema with an invalid integer value. -/
theorem C8_key_classification_witness :
    ("A" ∈ (validate (EnvSchema.mk [("A", { type := PropertyType.string })] ["A"]) {}
        (Except.ok [])).missingKeys ∧
      (EnvSchema.mk [("A", { type := PropertyType.string })] ["A"]).required.Nodup ∧
      "A" ∈ (EnvSchema.mk [("A", { type := PropertyType.string })] ["A"]).required ∧
      "A" ∉ (validate (EnvSchema.mk [("A", { type := PropertyType.string })] ["A"]) {}
        (Except.ok [])).invalidKeys ∧
      (((validate (EnvSchema.mk [("A", { type := PropertyType.string })] ["A"]) {}
        (Except.ok [])).errors).filter (fun e => e.key == "A")).length = 1) ∧
    ("B" ∈ (validate (EnvSchema.mk [("B", { type := PropertyType.integer })] []) {}
        (Except.ok [("B", "abc")])).invalidKeys ∧
      "B" ∈ schemaKeysOf (EnvSchema.mk [("B", { type := PropertyType.integer })] [])) :=
  ⟨⟨by decide, by decide,
    (C8_key_classification (EnvSchema.mk [("A", { type := PropertyType.string })] ["A"]) {} []).1
      "A" (by decide),
    (C8_key_classification (EnvSchema.mk [("A", { type := PropertyType.string })] ["A"]) {} []).2.2.1
      "A" (by decide),
    (C8_key_classification (EnvSchema.mk [("A", { type := PropertyType.string })] ["A"]) {} []).2.2.2
      (by decide) "A" (by decide)⟩,
   ⟨by decide,
    (C8_key_classification (EnvSchema.mk [("B", { type := PropertyType.integer })] []) {}
      [("B", "abc")]).2.1 "B" (by decide)⟩⟩

/-- A default-or-skip branch yielding a default-use outcome exposes the
declared default. -/
theorem defaultBranch_useDefault {p : Property} {d : Value}
    (h : defaultBranch p = PropOutcome.useDefault d) : p.default = some d := by
  unfold defaultBranch at h
  cases hd : p.default with
  | none => rw [hd] at h; simp at h
  | some x =>
    rw [hd] at h
    cases h
    rfl

/-- With duplicate-free property names, a name determines its property. -/
theorem nodup_keys_eq {l : List (String × Property)}
    (hnd : (l.map Prod.fst).Nodup) {k : String} {p p' : Property}
    (h1 : (k, p) ∈ l) (h2 : (k, p') ∈ l) : p = p' := by
  induction l with
  | nil => cases h1
  | cons a t ih =>
    rw [List.map_cons] at hnd
    have hhead := (List.nodup_cons.1 hnd).1
    rcases List.mem_cons.1 h1 with h1 | h1 <;> rcases List.mem_cons.1 h2 with h2 | h2
    · rw [← h1] at h2
      exact congrArg Prod.snd h2.symm
    · exfalso
      apply hhead
      rw [← h1]
      exact List.mem_map.2 ⟨(k, p'), h2, rfl⟩
    · exfalso
      apply hhead
      rw [← h2]
      exact List.mem_map.2 ⟨(k, p), h1, rfl⟩
    · exact ih (List.nodup_cons.1 hnd).2 h1 h2

/-- A declared property with a default, unset or empty in the map, has its
default adopted into `processedEnv` and its default-use warning recorded. -/
theorem default_adopted {schema : EnvSchema} {env : List (String × String)}
    {k : String} {p : Property} {d : Value}
    (hk : (k, p) ∈ schema.properties) (hmiss : isMissing env k = true)
    (hd : p.default = some d) :
    (k, d) ∈ processedEnvOf schema env ∧
    defaultWarning k d ∈ defaultWarningsOf schema env := by
  have hpp : processProp env k p = PropOutcome.useDefault d := by
    rw [processProp_of_missing hmiss]
    unfold defaultBranch
    rw [hd]
  constructor
  · refine List.mem_filterMap.2 ⟨(k, processProp env k p), ?_, ?_⟩
    · exact List.mem_map.2 ⟨(k, p), hk, rfl⟩
    · rw [hpp]
  · refine List.mem_filterMap.2 ⟨(k, processProp env k p), ?_, ?_⟩
    · exact List.mem_map.2 ⟨(k, p), hk, rfl⟩
    · rw [hpp]

/-- Every error of the Outcome keyed by an unset-or-empty name is the
required-missing error for that name. -/
theorem errors_of_missing_key {schema : EnvSchema} {options : ValidatorOptions}
    {env : List (String × String)} {k : String} (hmiss : isMissing env k = true) :
    ∀ e ∈ (validate schema options (Except.ok env)).errors, e.key = k →
      e = requiredMissingError k := by
  intro e he hkey
  rw [validate_ok, validateCore_errors] at he
  rcases List.mem_append.1 he with he | he
  · unfold requiredErrorsOf at he
    obtain ⟨r, hr, hre⟩ := List.mem_map.1 he
    subst hre
    have hr2 : r = k := hkey
    rw [hr2]
  · obtain ⟨p, hp, hinv, hmiss'⟩ := mem_propErrorsOf he
    rw [hkey] at hmiss'
    rw [hmiss] at hmiss'
    exact Bool.noConfusion hmiss'

/-- Members of `defaultWarningsOf` come from a default-use outcome of some
declared property. -/
theorem mem_defaultWarningsOf {schema : EnvSchema} {env : List (String × String)}
    {w : VWarning} (hw : w ∈ defaultWarningsOf schema env) :
    ∃ k p d, (k, p) ∈ schema.properties ∧
      processProp env k p = PropOutcome.useDefault d ∧
      w = defaultWarning k d := by
  obtain ⟨ko, hko, hmatch⟩ := List.mem_filterMap.1 hw
  obtain ⟨kp, hkp, hmap⟩ := List.mem_map.1 hko
  subst hmap
  cases hpp : processProp env kp.1 kp.2 with
  | skip => rw [hpp] at hmatch; simp at hmatch
  | invalid e0 => rw [hpp] at hmatch; simp at hmatch
  | okValue v => rw [hpp] at hmatch; simp at hmatch
  | useDefault d =>
    rw [hpp] at hmatch
    simp at hmatch
    exact ⟨kp.1, kp.2, d, hkp, hpp, hmatch.symm⟩

/-- The keys of unknown-key warnings are never declared property names. -/
theorem unknown_warning_key_not_declared {schema : EnvSchema}
    {options : ValidatorOptions} {env : List (String × String)} {w : VWarning}
    (hw : w ∈ unknownWarningsOf schema options env) :
    (schemaKeysOf schema).contains w.key = false := by
  unfold unknownWarningsOf at hw
  by_cases hAU : options.allowUnknown = true
  · rw [if_pos hAU] at hw
    exact absurd hw (List.not_mem_nil _)
  · rw [if_neg hAU] at hw
    obtain ⟨kv, hkv, hmatch⟩ := List.mem_filterMap.1 hw
    by_cases hc : ((schemaKeysOf schema).contains kv.1 || isSystemKey kv.1) = true
    · rw [if_pos hc] at hmatch
      simp at hmatch
    · rw [if_neg hc] at hmatch
      simp only [Bool.or_eq_true, not_or, Bool.not_eq_true] at hc
      have hw2 : w = unknownWarning kv.1 kv.2 := (Option.some.inj hmatch).symm
      have hwkey : w.key = kv.1 := by rw [hw2]; rfl
      rw [hwkey]
      exact hc.1

/-- C6 counterexample: property `A` has a default and its entry is absent,
yet (because `A` is also required) the Outcome does contain an Error for the
key `A` alongside the default-use Warning — refuting the claim's "no Error
for that key". -/
theorem C6_counterexample :
    (validate
        (EnvSchema.mk [("A", { type := PropertyType.string, default := some (Value.str "x") })]
          ["A"])
        {} (Except.ok [])).errors =
      [{ key := "A",
         message := "Required environment variable \x22A\x22 is missing or empty" }] ∧
    ({ key := "A",
       message := "Required environment variable \x22A\x22 is missing or empty" } : VError).key
      = "A" ∧
    (validate
        (EnvSchema.mk [("A", { type := PropertyType.string, default := some (Value.str "x") })]
          ["A"])
        {} (Except.ok [])).warnings = [defaultWarning "A" (Value.str "x")] := by
  refine ⟨by decide, rfl, by decide⟩

/-- C6 (amended): for every declared property whose entry in the merged map
is absent or empty: if the property has a default, `validate` adopts that
value as the property's final value and records the default-use Warning, and
the only Error the Outcome can hold for that key is the separate required
check's missing-key error (the property-processing step contributes none);
if it has no default, the property contributes no error, no warning and no
invalidKeys entry — only the separate required check can flag it. -/
theorem C6_default_or_skip (schema : EnvSchema) (options : ValidatorOptions)
    (env : List (String × String)) (k : String) (p : Property)
    (hk : (k, p) ∈ schema.properties) (hmiss : isMissing env k = true) :
    (∀ d, p.default = some d →
      (k, d) ∈ (validate schema options (Except.ok env)).processedEnv ∧
      defaultWarning k d ∈ (validate schema options (Except.ok env)).warnings ∧
      (∀ e ∈ (validate schema options (Except.ok env)).errors, e.key = k →
        e = requiredMissingError k)) ∧
    (p.default = none →
      (∀ e ∈ (validate schema options (Except.ok env)).errors, e.key = k →
        e = requiredMissingError k) ∧
      k ∉ (validate schema options (Except.ok env)).invalidKeys ∧
      ((schema.properties.map Prod.fst).Nodup →
        ∀ w ∈ (validate schema options (Except.ok env)).warnings, w.key ≠ k)) := by
  constructor
  · intro d hd
    obtain ⟨h1, h2⟩ := default_adopted hk hmiss hd
    refine ⟨?_, ?_, errors_of_missing_key hmiss⟩
    · rw [validate_ok, validateCore_processedEnv]
      exact h1
    · rw [validate_ok, validateCore_warnings]
      exact List.mem_append_left _ h2
  · intro hd
    refine ⟨errors_of_missing_key hmiss, ?_, ?_⟩
    · rw [validate_ok, validateCore_invalidKeys]
      exact missing_not_invalid hmiss
    · intro hnd w hw hkey
      rw [validate_ok, validateCore_warnings] at hw
      rcases List.mem_append.1 hw with hw | hw
      · obtain ⟨k', p', d', hk', hpp', hweq⟩ := mem_defaultWarningsOf hw
        have hwk : w.key = k' := by rw [hweq]; rfl
        have hk'k : k' = k := by rw [← hwk, hkey]
        subst hk'k
        rw [processProp_of_missing hmiss] at hpp'
        have : p'.default = some d' := defaultBranch_useDefault hpp'
        rw [nodup_keys_eq hnd hk' hk] at this
        rw [hd] at this
        exact Option.noConfusion this
      · have hnc := unknown_warning_key_not_declared hw
        rw [hkey] at hnc
        have : (schemaKeysOf schema).contains k = true :=
          List.elem_eq_true_of_mem (List.mem_map.2 ⟨(k, p), hk, rfl⟩)
        rw [this] at hnc
        exact Bool.noConfusion hnc

/-- C6 witness: the default branch at a required, defaulted, absent property
and the skip branch at an undefaulted one. -/
theorem C6_default_or_skip_witness :
    (("A", ({ type := PropertyType.string, default := some (Value.str "x") } : Property))
        ∈ (EnvSchema.mk [("A", { type := PropertyType.string, default := some (Value.str "x") })]
            ["A"]).properties ∧
      isMissing [] "A" = true ∧
      ("A", Value.str "x") ∈
        (validate
          (EnvSchema.mk [("A", { type := PropertyType.string, default := some (Value.str "x") })]
            ["A"]) {} (Except.ok [])).processedEnv ∧
      defaultWarning "A" (Value.str "x") ∈
        (validate
          (EnvSchema.mk [("A", { type := PropertyType.string, default := some (Value.str "x") })]
            ["A"]) {} (Except.ok [])).warnings ∧
      ({ key := "A",
         message := "Required environment variable \x22A\x22 is missing or empty" } : VError)
        = requiredMissingError "A") ∧
    (("N", ({ type := PropertyType.string } : Property))
        ∈ (EnvSchema.mk [("N", { type := PropertyType.string })] []).properties ∧
      isMissing [] "N" = true ∧
      "N" ∉ (validate (EnvSchema.mk [("N", { type := PropertyType.string })] []) {}
        (Except.ok [])).invalidKeys) :=
  ⟨⟨by decide, by decide,
    ((C6_default_or_skip
        (EnvSchema.mk [("A", { type := PropertyType.string, default := some (Value.str "x") })]
          ["A"]) {} [] "A"
        { type := PropertyType.string, default := some (Value.str "x") }
        (by decide) (by decide)).1 (Value.str "x") rfl).1,
    ((C6_default_or_skip
        (EnvSchema.mk [("A", { type := PropertyType.string, default := some (Value.str "x") })]
          ["A"]) {} [] "A"
        { type := PropertyType.string, default := some (Value.str "x") }
        (by decide) (by decide)).1 (Value.str "x") rfl).2.1,
    ((C6_default_or_skip
        (EnvSchema.mk [("A", { type := PropertyType.string, default := some (Value.str "x") })]
          ["A"]) {} [] "A"
        { type := PropertyType.string, default := some (Value.str "x") }
        (by decide) (by decide)).1 (Value.str "x") rfl).2.2
      { key := "A",
        message := "Required environment variable \x22A\x22 is missing or empty" }
      (by decide) rfl⟩,
   ⟨by decide, by decide,
    ((C6_default_or_skip (EnvSchema.mk [("N", { type := PropertyType.string })] []) {} [] "N"
        { type := PropertyType.string } (by decide) (by decide)).2 rfl).2.1⟩⟩

/-- C10 counterexample: a default (`"x"`) that violates its own property's
`enum` constraint is adopted with no `invalidKeys` entry and only a
default-use warning, but — the key also being required and absent — the
Outcome does contain an Error for that key, refuting the claim's "produces
no Error". -/
theorem C10_counterexample :
    checkProperty
        { type := PropertyType.string, enum := some [Value.str "y"],
          default := some (Value.str "x") } (Value.str "x") ≠ [] ∧
    (validate
        (EnvSchema.mk
          [("B", { type := PropertyType.string, enum := some [Value.str "y"],
                   default := some (Value.str "x") })] ["B"])
        {} (Except.ok [])).errors = [requiredMissingError "B"] ∧
    (validate
        (EnvSchema.mk
          [("B", { type := PropertyType.string, enum := some [Value.str "y"],
                   default := some (Value.str "x") })] ["B"])
        {} (Except.ok [])).invalidKeys = [] ∧
    (validate
        (EnvSchema.mk
          [("B", { type := PropertyType.string, enum := some [Value.str "y"],
                   default := some (Value.str "x") })] ["B"])
        {} (Except.ok [])).warnings = [defaultWarning "B" (Value.str "x")] ∧
    ("B", Value.str "x") ∈
      (validate
        (EnvSchema.mk
          [("B", { type := PropertyType.string, enum := some [Value.str "y"],
                   default := some (Value.str "x") })] ["B"])
        {} (Except.ok [])).processedEnv :=
  ⟨by decide, by decide, by decide, by decide, by decide⟩

/-- C10 (amended): an adopted default bypasses coercion and constraint
checking entirely: for every property whose entry is absent or empty and
whose default is defined — with no assumption that the default satisfies the
property's own type, enum, range, length or format constraints — the default
becomes the final value, the key gets no `invalidKeys` entry and no
invalid-value Error (the only Error the Outcome can hold for that key is the
separate required check's missing-key error), and the only warning for that
key is the default-use Warning. -/
theorem C10_default_bypasses_constraints (schema : EnvSchema)
    (options : ValidatorOptions) (env : List (String × String))
    (k : String) (p : Property) (d : Value)
    (hk : (k, p) ∈ schema.properties) (hd : p.default = some d)
    (hmiss : isMissing env k = true) :
    (k, d) ∈ (validate schema options (Except.ok env)).processedEnv ∧
    k ∉ (validate schema options (Except.ok env)).invalidKeys ∧
    (∀ e ∈ (validate schema options (Except.ok env)).errors, e.key = k →
      e = requiredMissingError k) ∧
    defaultWarning k d ∈ (validate schema options (Except.ok env)).warnings ∧
    ((schema.properties.map Prod.fst).Nodup →
      ∀ w ∈ (validate schema options (Except.ok env)).warnings, w.key = k →
        w = defaultWarning k d) := by
  obtain ⟨h1, h2⟩ := default_adopted hk hmiss hd
  refine ⟨?_, ?_, errors_of_missing_key hmiss, ?_, ?_⟩
  · rw [validate_ok, validateCore_processedEnv]
    exact h1
  · rw [validate_ok, validateCore_invalidKeys]
    exact missing_not_invalid hmiss
  · rw [validate_ok, validateCore_warnings]
    exact List.mem_append_left _ h2
  · intro hnd w hw hkey
    rw [validate_ok, validateCore_warnings] at hw
    rcases List.mem_append.1 hw with hw | hw
    · obtain ⟨k', p', d', hk', hpp', hweq⟩ := mem_defaultWarningsOf hw
      have hwk : w.key = k' := by rw [hweq]; rfl
      have hk'k : k' = k := by rw [← hwk, hkey]
      subst hk'k
      rw [processProp_of_missing hmiss] at hpp'
      have hpd : p'.default = some d' := defaultBranch_useDefault hpp'
      rw [nodup_keys_eq hnd hk' hk] at hpd
      rw [hd] at hpd
      have hdd : d' = d := (Option.some.inj hpd).symm
      rw [hweq, hdd]
    · exfalso
      have hnc := unknown_warning_key_not_declared hw
      rw [hkey] at hnc
      have : (schemaKeysOf schema).contains k = true :=
        List.elem_eq_true_of_mem (List.mem_map.2 ⟨(k, p), hk, rfl⟩)
      rw [this] at hnc
      exact Bool.noConfusion hnc

/-- C10 witness: a default violating a `minLength` constraint is adopted as
the final value with no invalid classification and only its default-use
warning. -/
theorem C10_default_bypasses_constraints_witness :
    (("C", ({ type := PropertyType.string, minLength := some 5,
              default := some (Value.str "x") } : Property))
        ∈ (EnvSchema.mk
            [("C", { type := PropertyType.string, minLength := some 5,
                     default := some (Value.str "x") })] []).properties ∧
      isMissing [] "C" = true ∧
      checkProperty
        { type := PropertyType.string, minLength := some 5,
          default := some (Value.str "x") } (Value.str "x") ≠ []) ∧
    ("C", Value.str "x") ∈
      (validate
        (EnvSchema.mk
          [("C", { type := PropertyType.string, minLength := some 5,
                   default := some (Value.str "x") })] [])
        {} (Except.ok [])).processedEnv ∧
    "C" ∉ (validate
        (EnvSchema.mk
          [("C", { type := PropertyType.string, minLength := some 5,
                   default := some (Value.str "x") })] [])
        {} (Except.ok [])).invalidKeys ∧
    defaultWarning "C" (Value.str "x") ∈
      (validate
        (EnvSchema.mk
          [("C", { type := PropertyType.string, minLength := some 5,
                   default := some (Value.str "x") })] [])
        {} (Except.ok [])).warnings ∧
    defaultWarning "C" (Value.str "x") = defaultWarning "C" (Value.str "x") :=
  ⟨⟨by decide, by decide, by decide⟩,
   (C10_default_bypasses_constraints
      (EnvSchema.mk
        [("C", { type := PropertyType.string, minLength := some 5,
                 default := some (Value.str "x") })] [])
      {} [] "C"
      { type := PropertyType.string, minLength := some 5,
        default := some (Value.str "x") }
      (Value.str "x") (by decide) rfl (by decide)).1,
   (C10_default_bypasses_constraints
      (EnvSchema.mk
        [("C", { type := PropertyType.string, minLength := some 5,
                 default := some (Value.str "x") })] [])
      {} [] "C"
      { type := PropertyType.string, minLength := some 5,
        default := some (Value.str "x") }
      (Value.str "x") (by decide) rfl (by decide)).2.1,
   (C10_default_bypasses_constraints
      (EnvSchema.mk
        [("C", { type := PropertyType.string, minLength := some 5,
                 default := some (Value.str "x") })] [])
      {} [] "C"
      { type := PropertyType.string, minLength := some 5,
        default := some (Value.str "x") }
      (Value.str "x") (by decide) rfl (by decide)).2.2.2.1,
   (C10_default_bypasses_constraints
      (EnvSchema.mk
        [("C", { type := PropertyType.string, minLength := some 5,
                 default := some (Value.str "x") })] [])
      {} [] "C"
      { type := PropertyType.string, minLength := some 5,
        default := some (Value.str "x") }
      (Value.str "x") (by decide) rfl (by decide)).2.2.2.2
      (by decide) (defaultWarning "C" (Value.str "x")) (by decide) rfl⟩
